import Mathlib

/-!
Shallow embedding of the `multicam_common` Python package
(`commands.py`, `status.py`, `constants.py`) and proofs about it.

Modeling conventions:
* A parsed JSON document is a `Json` tree.  Python's `json.loads` keeps
  integer and floating literals distinct, so the model has two numeric
  constructors; Python floats are modeled as rationals (exact values,
  no NaN/Inf, which the wire format does not use).
* `json.dumps` followed by `json.loads` is the identity on such trees, so
  the serializers are modeled as functions into `Json` and the
  deserializers as functions out of `Json`; the string stage is modeled
  by an `Option Json` input (`none` = text that is not well-formed JSON).
* Python is dynamically typed; the decoders here record each field at the
  type its dataclass annotation declares and report a `typeMismatch`
  where a Python value of another type would be stored unchecked.  No
  claim below depends on ill-typed field values.
* `dict` access `d[k]` / `d.get(k, default)` is modeled by association
  list lookup (`json.loads` already collapses duplicate keys).
* Calls to `time.time()` are modeled by an explicit `now` argument.
-/

namespace MultiCam

/-- JSON values as produced by Python `json.loads`. -/
inductive Json where
  | null : Json
  | bool (b : Bool) : Json
  | intNum (n : ℤ) : Json
  | floatNum (q : ℚ) : Json
  | str (s : String) : Json
  | arr (elems : List Json) : Json
  | obj (fields : List (String × Json)) : Json

/-- Decode failure taxonomy (spec §4.1 / §7): Python raises
`json.JSONDecodeError`, `KeyError`, `ValueError` respectively;
`typeMismatch` marks the places where Python would silently store a
value of an unannotated type (see the file comment). -/
inductive DecodeError where
  | malformedJson : DecodeError
  | missingField (name : String) : DecodeError
  | unknownCommand (value : String) : DecodeError
  | typeMismatch : DecodeError
  | truncatedStream : DecodeError
deriving DecidableEq

/-- Source: `data[k]` / `data.get(k)` on a parsed JSON object. -/
def lookupKey : List (String × Json) → String → Option Json
  | [], _ => none
  | (k, v) :: rest, key => if key = k then some v else lookupKey rest key

/-- Source: `data[k]`: `KeyError` when the key is absent. -/
def requireKey (kvs : List (String × Json)) (k : String) : Except DecodeError Json :=
  match lookupKey kvs k with
  | none => .error (.missingField k)
  | some v => .ok v

/-- Read a field annotated `str`. -/
def asStr : Json → Except DecodeError String
  | .str s => .ok s
  | _ => .error .typeMismatch

/-- Read a field annotated `float` (a Python int is accepted there too). -/
def asFloat : Json → Except DecodeError ℚ
  | .floatNum q => .ok q
  | .intNum n => .ok (n : ℚ)
  | _ => .error .typeMismatch

/-- Read a field annotated `int`. -/
def asInt : Json → Except DecodeError ℤ
  | .intNum n => .ok n
  | _ => .error .typeMismatch

/-- Source: `data.get(k)` for an `Optional[str]` field: absent and `null` both
become `None`. -/
def getOptStr (kvs : List (String × Json)) (k : String) : Except DecodeError (Option String) :=
  match lookupKey kvs k with
  | none => .ok none
  | some .null => .ok none
  | some (.str s) => .ok (some s)
  | some _ => .error .typeMismatch

/-- Source: `data.get(k)` for an `Optional[float]` field. -/
def getOptFloat (kvs : List (String × Json)) (k : String) : Except DecodeError (Option ℚ) :=
  match lookupKey kvs k with
  | none => .ok none
  | some .null => .ok none
  | some (.floatNum q) => .ok (some q)
  | some (.intNum n) => .ok (some (n : ℚ))
  | some _ => .error .typeMismatch

/-- JSON encoding of an `Optional[str]` field (`None` serializes as `null`). -/
def optStrJson : Option String → Json
  | none => .null
  | some s => .str s

/-- JSON encoding of an `Optional[float]` field. -/
def optFloatJson : Option ℚ → Json
  | none => .null
  | some q => .floatNum q

/-- Left-to-right effectful map, as a Python list comprehension over a
fallible element decoder (the first exception propagates). -/
def mapExcept (f : α → Except DecodeError β) : List α → Except DecodeError (List β)
  | [] => .ok []
  | x :: xs =>
    match f x with
    | .error e => .error e
    | .ok y =>
      match mapExcept f xs with
      | .error e => .error e
      | .ok ys => .ok (y :: ys)

/-- Source: `commands.py` lines 12-36: `CommandType(str, Enum)`. -/
inductive CommandType where
  | START_RECORDING : CommandType
  | STOP_RECORDING : CommandType
  | DEVICE_STATUS : CommandType
  | GET_VIDEO : CommandType
  | HEARTBEAT : CommandType
  | LIST_FILES : CommandType
  | UPLOAD_TO_CLOUD : CommandType
deriving DecidableEq

/-- Source: `.value` of each `CommandType` member. -/
def CommandType.value : CommandType → String
  | .START_RECORDING => "START_RECORDING"
  | .STOP_RECORDING => "STOP_RECORDING"
  | .DEVICE_STATUS => "DEVICE_STATUS"
  | .GET_VIDEO => "GET_VIDEO"
  | .HEARTBEAT => "HEARTBEAT"
  | .LIST_FILES => "LIST_FILES"
  | .UPLOAD_TO_CLOUD => "UPLOAD_TO_CLOUD"

/-- The enum constructor `CommandType(s)`: lookup by value, `ValueError`
(here `none`) when no member matches. -/
def CommandType.fromString (s : String) : Option CommandType :=
  if s = "START_RECORDING" then some .START_RECORDING
  else if s = "STOP_RECORDING" then some .STOP_RECORDING
  else if s = "DEVICE_STATUS" then some .DEVICE_STATUS
  else if s = "GET_VIDEO" then some .GET_VIDEO
  else if s = "HEARTBEAT" then some .HEARTBEAT
  else if s = "LIST_FILES" then some .LIST_FILES
  else if s = "UPLOAD_TO_CLOUD" then some .UPLOAD_TO_CLOUD
  else none

/-- Source: `commands.py` lines 39-60: dataclass `CommandMessage`. -/
structure CommandMessage where
  command : CommandType
  timestamp : ℚ
  deviceId : String := "controller"
  fileName : Option String := none
  uploadUrl : Option String := none
deriving DecidableEq

namespace CommandMessage

/-- Source: `commands.py` lines 62-76: `CommandMessage.to_json` (the JSON tree
that `json.dumps` receives). -/
def to_json (m : CommandMessage) : Json :=
  .obj [("command", .str m.command.value),
        ("timestamp", .floatNum m.timestamp),
        ("deviceId", .str m.deviceId),
        ("fileName", optStrJson m.fileName),
        ("uploadUrl", optStrJson m.uploadUrl)]

/-- Source: `commands.py` lines 87-105: `CommandMessage.from_json`, applied to an
already-parsed JSON value. -/
def from_json (j : Json) : Except DecodeError CommandMessage :=
  match j with
  | .obj kvs =>
    match lookupKey kvs "command" with
    | none => .error (.missingField "command")
    | some cv =>
      match cv with
      | .str cs =>
        match CommandType.fromString cs with
        | none => .error (.unknownCommand cs)
        | some cmd =>
          match lookupKey kvs "timestamp" with
          | none => .error (.missingField "timestamp")
          | some tv =>
            match asFloat tv with
            | .error e => .error e
            | .ok ts =>
              match (match lookupKey kvs "deviceId" with
                     | none => Except.ok "controller"
                     | some (.str s) => Except.ok s
                     | some _ => Except.error DecodeError.typeMismatch) with
              | .error e => .error e
              | .ok dev =>
                match getOptStr kvs "fileName" with
                | .error e => .error e
                | .ok fn =>
                  match getOptStr kvs "uploadUrl" with
                  | .error e => .error e
                  | .ok url =>
                    .ok { command := cmd, timestamp := ts, deviceId := dev,
                          fileName := fn, uploadUrl := url }
      | _ => .error .typeMismatch
  | _ => .error .malformedJson

/-- The full decode pipeline from raw text: `none` models input that
`json.loads` rejects as malformed. -/
def decode (parsed : Option Json) : Except DecodeError CommandMessage :=
  match parsed with
  | none => .error .malformedJson
  | some j => from_json j

/-- Source: `commands.py` lines 107-123: `CommandMessage.start_recording`; the
Python body is `timestamp or time.time()`, and `0.0` is falsy. -/
def start_recording (timestamp : Option ℚ) (device_id : String) (now : ℚ) : CommandMessage :=
  { command := .START_RECORDING,
    timestamp := match timestamp with
                 | none => now
                 | some t => if t = 0 then now else t,
    deviceId := device_id }

/-- Source: `commands.py` lines 125-140: `CommandMessage.stop_recording`. -/
def stop_recording (device_id : String) (now : ℚ) : CommandMessage :=
  { command := .STOP_RECORDING, timestamp := now, deviceId := device_id }

/-- Source: `commands.py` lines 142-157: `CommandMessage.device_status`. -/
def device_status (device_id : String) (now : ℚ) : CommandMessage :=
  { command := .DEVICE_STATUS, timestamp := now, deviceId := device_id }

/-- Source: `commands.py` lines 159-176: `CommandMessage.get_video`. -/
def get_video (file_name : String) (device_id : String) (now : ℚ) : CommandMessage :=
  { command := .GET_VIDEO, timestamp := now, deviceId := device_id,
    fileName := some file_name }

/-- Source: `commands.py` lines 178-193: `CommandMessage.heartbeat`. -/
def heartbeat (device_id : String) (now : ℚ) : CommandMessage :=
  { command := .HEARTBEAT, timestamp := now, deviceId := device_id }

/-- Source: `commands.py` lines 195-212: `CommandMessage.list_files`. -/
def list_files (device_id : String) (now : ℚ) : CommandMessage :=
  { command := .LIST_FILES, timestamp := now, deviceId := device_id }

/-- Source: `commands.py` lines 214-236: `CommandMessage.upload_to_cloud`. -/
def upload_to_cloud (file_name : String) (upload_url : String) (device_id : String)
    (now : ℚ) : CommandMessage :=
  { command := .UPLOAD_TO_CLOUD, timestamp := now, deviceId := device_id,
    fileName := some file_name, uploadUrl := some upload_url }

end CommandMessage

/-- Source: `commands.py` lines 566-597: dataclass `UploadItem`. -/
structure UploadItem where
  fileName : String
  fileSize : ℤ
  bytesUploaded : ℤ
  uploadProgress : ℚ
  uploadSpeed : ℤ
  status : String
  uploadUrl : String
  error : Option String := none
deriving DecidableEq

namespace UploadItem

/-- Source: `asdict(item)` for an `UploadItem` (field declaration order). -/
def toDict (u : UploadItem) : Json :=
  .obj [("fileName", .str u.fileName),
        ("fileSize", .intNum u.fileSize),
        ("bytesUploaded", .intNum u.bytesUploaded),
        ("uploadProgress", .floatNum u.uploadProgress),
        ("uploadSpeed", .intNum u.uploadSpeed),
        ("status", .str u.status),
        ("uploadUrl", .str u.uploadUrl),
        ("error", optStrJson u.error)]

/-- Source: `commands.py` lines 598-618: `UploadItem.from_dict`. -/
def from_dict (j : Json) : Except DecodeError UploadItem :=
  match j with
  | .obj kvs =>
    match requireKey kvs "fileName" with
    | .error e => .error e
    | .ok v1 =>
      match asStr v1 with
      | .error e => .error e
      | .ok fn =>
        match requireKey kvs "fileSize" with
        | .error e => .error e
        | .ok v2 =>
          match asInt v2 with
          | .error e => .error e
          | .ok fs =>
            match requireKey kvs "bytesUploaded" with
            | .error e => .error e
            | .ok v3 =>
              match asInt v3 with
              | .error e => .error e
              | .ok bu =>
                match requireKey kvs "uploadProgress" with
                | .error e => .error e
                | .ok v4 =>
                  match asFloat v4 with
                  | .error e => .error e
                  | .ok up =>
                    match requireKey kvs "uploadSpeed" with
                    | .error e => .error e
                    | .ok v5 =>
                      match asInt v5 with
                      | .error e => .error e
                      | .ok us =>
                        match requireKey kvs "status" with
                        | .error e => .error e
                        | .ok v6 =>
                          match asStr v6 with
                          | .error e => .error e
                          | .ok st =>
                            match requireKey kvs "uploadUrl" with
                            | .error e => .error e
                            | .ok v7 =>
                              match asStr v7 with
                              | .error e => .error e
                              | .ok uu =>
                                match getOptStr kvs "error" with
                                | .error e => .error e
                                | .ok er =>
                                  .ok { fileName := fn, fileSize := fs,
                                        bytesUploaded := bu, uploadProgress := up,
                                        uploadSpeed := us, status := st,
                                        uploadUrl := uu, error := er }
  | _ => .error .typeMismatch

end UploadItem

/-- Source: `commands.py` lines 239-261: dataclass `StatusResponse`. -/
structure StatusResponse where
  deviceId : String
  status : String
  timestamp : ℚ
  batteryLevel : Option ℚ := none
  uploadQueue : List UploadItem := []
  failedUploadQueue : List UploadItem := []
deriving DecidableEq

namespace StatusResponse

/-- Source: `commands.py` lines 287-302: `StatusResponse.to_json`. -/
def to_json (r : StatusResponse) : Json :=
  .obj [("deviceId", .str r.deviceId),
        ("status", .str r.status),
        ("timestamp", .floatNum r.timestamp),
        ("batteryLevel", optFloatJson r.batteryLevel),
        ("uploadQueue", .arr (r.uploadQueue.map UploadItem.toDict)),
        ("failedUploadQueue", .arr (r.failedUploadQueue.map UploadItem.toDict))]

/-- Source: `data.get('uploadQueue', [])`, then a comprehension over
`UploadItem.from_dict`. -/
def decodeQueue (kvs : List (String × Json)) (k : String) :
    Except DecodeError (List UploadItem) :=
  match lookupKey kvs k with
  | none => .ok []
  | some (.arr items) => mapExcept UploadItem.from_dict items
  | some _ => .error .typeMismatch

/-- Source: `commands.py` lines 263-285: `StatusResponse.from_json`. -/
def from_json (j : Json) : Except DecodeError StatusResponse :=
  match j with
  | .obj kvs =>
    match decodeQueue kvs "uploadQueue" with
    | .error e => .error e
    | .ok uq =>
      match decodeQueue kvs "failedUploadQueue" with
      | .error e => .error e
      | .ok fq =>
        match requireKey kvs "deviceId" with
        | .error e => .error e
        | .ok v1 =>
          match asStr v1 with
          | .error e => .error e
          | .ok dev =>
            match requireKey kvs "status" with
            | .error e => .error e
            | .ok v2 =>
              match asStr v2 with
              | .error e => .error e
              | .ok st =>
                match requireKey kvs "timestamp" with
                | .error e => .error e
                | .ok v3 =>
                  match asFloat v3 with
                  | .error e => .error e
                  | .ok ts =>
                    match getOptFloat kvs "batteryLevel" with
                    | .error e => .error e
                    | .ok bl =>
                      .ok { deviceId := dev, status := st, timestamp := ts,
                            batteryLevel := bl, uploadQueue := uq,
                            failedUploadQueue := fq }
  | _ => .error .malformedJson

end StatusResponse

/-- Source: `commands.py` lines 305-324: dataclass `StopRecordingResponse`. -/
structure StopRecordingResponse where
  deviceId : String
  status : String
  timestamp : ℚ
  fileName : String
  fileSize : ℤ
deriving DecidableEq

namespace StopRecordingResponse

/-- Source: `commands.py` lines 346-353: `StopRecordingResponse.to_json`
(`json.dumps(asdict(self))`, field declaration order). -/
def to_json (r : StopRecordingResponse) : Json :=
  .obj [("deviceId", .str r.deviceId),
        ("status", .str r.status),
        ("timestamp", .floatNum r.timestamp),
        ("fileName", .str r.fileName),
        ("fileSize", .intNum r.fileSize)]

/-- Source: `commands.py` lines 326-344: `StopRecordingResponse.from_json`. -/
def from_json (j : Json) : Except DecodeError StopRecordingResponse :=
  match j with
  | .obj kvs =>
    match requireKey kvs "deviceId" with
    | .error e => .error e
    | .ok v1 =>
      match asStr v1 with
      | .error e => .error e
      | .ok dev =>
        match requireKey kvs "status" with
        | .error e => .error e
        | .ok v2 =>
          match asStr v2 with
          | .error e => .error e
          | .ok st =>
            match requireKey kvs "timestamp" with
            | .error e => .error e
            | .ok v3 =>
              match asFloat v3 with
              | .error e => .error e
              | .ok ts =>
                match requireKey kvs "fileName" with
                | .error e => .error e
                | .ok v4 =>
                  match asStr v4 with
                  | .error e => .error e
                  | .ok fn =>
                    match requireKey kvs "fileSize" with
                    | .error e => .error e
                    | .ok v5 =>
                      match asInt v5 with
                      | .error e => .error e
                      | .ok fs =>
                        .ok { deviceId := dev, status := st, timestamp := ts,
                              fileName := fn, fileSize := fs }
  | _ => .error .malformedJson

end StopRecordingResponse

/-- Source: `commands.py` lines 356-372: dataclass `ErrorResponse`. -/
structure ErrorResponse where
  deviceId : String
  status : String
  timestamp : ℚ
  message : String
deriving DecidableEq

namespace ErrorResponse

/-- Source: `commands.py` lines 393-400: `ErrorResponse.to_json`. -/
def to_json (r : ErrorResponse) : Json :=
  .obj [("deviceId", .str r.deviceId),
        ("status", .str r.status),
        ("timestamp", .floatNum r.timestamp),
        ("message", .str r.message)]

/-- Source: `commands.py` lines 374-391: `ErrorResponse.from_json`. -/
def from_json (j : Json) : Except DecodeError ErrorResponse :=
  match j with
  | .obj kvs =>
    match requireKey kvs "deviceId" with
    | .error e => .error e
    | .ok v1 =>
      match asStr v1 with
      | .error e => .error e
      | .ok dev =>
        match requireKey kvs "status" with
        | .error e => .error e
        | .ok v2 =>
          match asStr v2 with
          | .error e => .error e
          | .ok st =>
            match requireKey kvs "timestamp" with
            | .error e => .error e
            | .ok v3 =>
              match asFloat v3 with
              | .error e => .error e
              | .ok ts =>
                match requireKey kvs "message" with
                | .error e => .error e
                | .ok v4 =>
                  match asStr v4 with
                  | .error e => .error e
                  | .ok msg =>
                    .ok { deviceId := dev, status := st, timestamp := ts,
                          message := msg }
  | _ => .error .malformedJson

end ErrorResponse

/-- Source: `commands.py` lines 403-419: dataclass `FileMetadata`. -/
structure FileMetadata where
  fileName : String
  fileSize : ℤ
  creationDate : ℚ
  modificationDate : ℚ
deriving DecidableEq

namespace FileMetadata

/-- Source: `asdict(f)` for a `FileMetadata`. -/
def toDict (f : FileMetadata) : Json :=
  .obj [("fileName", .str f.fileName),
        ("fileSize", .intNum f.fileSize),
        ("creationDate", .floatNum f.creationDate),
        ("modificationDate", .floatNum f.modificationDate)]

/-- Source: `commands.py` lines 421-437: `FileMetadata.from_dict`. -/
def from_dict (j : Json) : Except DecodeError FileMetadata :=
  match j with
  | .obj kvs =>
    match requireKey kvs "fileName" with
    | .error e => .error e
    | .ok v1 =>
      match asStr v1 with
      | .error e => .error e
      | .ok fn =>
        match requireKey kvs "fileSize" with
        | .error e => .error e
        | .ok v2 =>
          match asInt v2 with
          | .error e => .error e
          | .ok fs =>
            match requireKey kvs "creationDate" with
            | .error e => .error e
            | .ok v3 =>
              match asFloat v3 with
              | .error e => .error e
              | .ok cd =>
                match requireKey kvs "modificationDate" with
                | .error e => .error e
                | .ok v4 =>
                  match asFloat v4 with
                  | .error e => .error e
                  | .ok md =>
                    .ok { fileName := fn, fileSize := fs,
                          creationDate := cd, modificationDate := md }
  | _ => .error .typeMismatch

end FileMetadata

/-- Source: `commands.py` lines 440-463: dataclass `FileResponse`, the JSON
header of the binary `GET_VIDEO` transfer. -/
structure FileResponse where
  deviceId : String
  fileName : String
  fileSize : ℤ
  status : String
deriving DecidableEq

namespace FileResponse

/-- Source: `commands.py` lines 484-491: `FileResponse.to_json`. -/
def to_json (r : FileResponse) : Json :=
  .obj [("deviceId", .str r.deviceId),
        ("fileName", .str r.fileName),
        ("fileSize", .intNum r.fileSize),
        ("status", .str r.status)]

/-- Source: `commands.py` lines 465-482: `FileResponse.from_json`. -/
def from_json (j : Json) : Except DecodeError FileResponse :=
  match j with
  | .obj kvs =>
    match requireKey kvs "deviceId" with
    | .error e => .error e
    | .ok v1 =>
      match asStr v1 with
      | .error e => .error e
      | .ok dev =>
        match requireKey kvs "fileName" with
        | .error e => .error e
        | .ok v2 =>
          match asStr v2 with
          | .error e => .error e
          | .ok fn =>
            match requireKey kvs "fileSize" with
            | .error e => .error e
            | .ok v3 =>
              match asInt v3 with
              | .error e => .error e
              | .ok fs =>
                match requireKey kvs "status" with
                | .error e => .error e
                | .ok v4 =>
                  match asStr v4 with
                  | .error e => .error e
                  | .ok st =>
                    .ok { deviceId := dev, fileName := fn, fileSize := fs,
                          status := st }
  | _ => .error .malformedJson

end FileResponse

/-- Source: `commands.py` lines 494-511: dataclass `ListFilesResponse`. -/
structure ListFilesResponse where
  deviceId : String
  status : String
  timestamp : ℚ
  files : List FileMetadata := []
deriving DecidableEq

namespace ListFilesResponse

/-- Source: `commands.py` lines 534-547: `ListFilesResponse.to_json`. -/
def to_json (r : ListFilesResponse) : Json :=
  .obj [("deviceId", .str r.deviceId),
        ("status", .str r.status),
        ("timestamp", .floatNum r.timestamp),
        ("files", .arr (r.files.map FileMetadata.toDict))]

/-- Source: `commands.py` lines 514-532: `ListFilesResponse.from_json`. -/
def from_json (j : Json) : Except DecodeError ListFilesResponse :=
  match j with
  | .obj kvs =>
    match (match lookupKey kvs "files" with
           | none => Except.ok ([] : List FileMetadata)
           | some (.arr items) => mapExcept FileMetadata.from_dict items
           | some _ => Except.error DecodeError.typeMismatch) with
    | .error e => .error e
    | .ok fls =>
      match requireKey kvs "deviceId" with
      | .error e => .error e
      | .ok v1 =>
        match asStr v1 with
        | .error e => .error e
        | .ok dev =>
          match requireKey kvs "status" with
          | .error e => .error e
          | .ok v2 =>
            match asStr v2 with
            | .error e => .error e
            | .ok st =>
              match requireKey kvs "timestamp" with
              | .error e => .error e
              | .ok v3 =>
                match asFloat v3 with
                | .error e => .error e
                | .ok ts =>
                  .ok { deviceId := dev, status := st, timestamp := ts,
                        files := fls }
  | _ => .error .malformedJson

end ListFilesResponse

/-- Python `str.lower()` on one character, for the ASCII range; every
status token compared in `status.py` is ASCII. -/
def lowerChar (c : Char) : Char :=
  if 65 ≤ c.toNat ∧ c.toNat ≤ 90 then Char.ofNat (c.toNat + 32) else c

/-- Python `str.lower()`. -/
def pyLower (s : String) : String :=
  .mk (s.data.map lowerChar)

/-- Source: `status.py` lines 26-70: `DeviceStatus(str, Enum)`. -/
inductive DeviceStatus where
  | READY : DeviceStatus
  | RECORDING : DeviceStatus
  | STOPPING : DeviceStatus
  | ERROR : DeviceStatus
  | SCHEDULED_RECORDING_ACCEPTED : DeviceStatus
  | RECORDING_STOPPED : DeviceStatus
  | COMMAND_RECEIVED : DeviceStatus
  | TIME_NOT_SYNCHRONIZED : DeviceStatus
  | FILE_NOT_FOUND : DeviceStatus
  | UPLOADING : DeviceStatus
  | UPLOAD_QUEUED : DeviceStatus
  | UPLOAD_COMPLETED : DeviceStatus
  | UPLOAD_FAILED : DeviceStatus
deriving DecidableEq

namespace DeviceStatus

/-- Source: `.value` of each `DeviceStatus` member. -/
def value : DeviceStatus → String
  | .READY => "ready"
  | .RECORDING => "recording"
  | .STOPPING => "stopping"
  | .ERROR => "error"
  | .SCHEDULED_RECORDING_ACCEPTED => "scheduled_recording_accepted"
  | .RECORDING_STOPPED => "recording_stopped"
  | .COMMAND_RECEIVED => "command_received"
  | .TIME_NOT_SYNCHRONIZED => "time_not_synchronized"
  | .FILE_NOT_FOUND => "file_not_found"
  | .UPLOADING => "uploading"
  | .UPLOAD_QUEUED => "upload_queued"
  | .UPLOAD_COMPLETED => "upload_completed"
  | .UPLOAD_FAILED => "upload_failed"

/-- The set literal built in `status.py` lines 83-93. -/
def successSet : List String :=
  [DeviceStatus.READY.value,
   DeviceStatus.RECORDING.value,
   DeviceStatus.SCHEDULED_RECORDING_ACCEPTED.value,
   DeviceStatus.COMMAND_RECEIVED.value,
   DeviceStatus.RECORDING_STOPPED.value,
   DeviceStatus.STOPPING.value,
   DeviceStatus.UPLOADING.value,
   DeviceStatus.UPLOAD_QUEUED.value,
   DeviceStatus.UPLOAD_COMPLETED.value]

/-- Source: `status.py` lines 72-94: `DeviceStatus.is_success`. -/
def is_success (status : String) : Bool :=
  successSet.contains (pyLower status)

/-- The set literal built in `status.py` lines 107-112. -/
def errorSet : List String :=
  [DeviceStatus.ERROR.value,
   DeviceStatus.TIME_NOT_SYNCHRONIZED.value,
   DeviceStatus.FILE_NOT_FOUND.value,
   DeviceStatus.UPLOAD_FAILED.value]

/-- Source: `status.py` lines 96-113: `DeviceStatus.is_error`. -/
def is_error (status : String) : Bool :=
  errorSet.contains (pyLower status)

end DeviceStatus

/-- Source: `constants.py` line 6. -/
def TCP_PORT : ℕ := 8080

/-- Source: `constants.py` line 9. -/
def SERVICE_TYPE : String := "_multicam._tcp.local."

/-- Source: `constants.py` line 13. -/
def NTP_SERVER : String := "pool.ntp.org"

/-- Source: `constants.py` line 16. -/
def NTP_PORT : ℕ := 123

/-- Source: `constants.py` line 19. -/
def MAX_ACCEPTABLE_RTT : ℚ := 0.5

/-- Source: `constants.py` line 23. -/
def SYNC_DELAY : ℚ := 3.0

/-- Source: `constants.py` line 27. -/
def COMMAND_TIMEOUT : ℚ := 60.0

/-- Source: `constants.py` line 30. -/
def DOWNLOAD_STALL_TIMEOUT : ℚ := 600.0

/-- Source: `constants.py` line 34. -/
def DOWNLOAD_CHUNK_SIZE : ℕ := 8192

/-- Source: `constants.py` lines 46-53: the legacy success-status set. -/
def SUCCESS_STATUSES : List String :=
  ["ready", "recording", "scheduled_recording_accepted",
   "command_received", "recording_stopped", "stopping"]

/-- Big-endian 4-byte encoding of a header length (spec §4.1). -/
def u32be (n : ℕ) : List ℕ :=
  [n / 2 ^ 24 % 256, n / 2 ^ 16 % 256, n / 2 ^ 8 % 256, n % 256]

/-- Value of 4 big-endian bytes. -/
def beVal : List ℕ → ℕ
  | [a, b, c, d] => ((a * 256 + b) * 256 + c) * 256 + d
  | _ => 0

/-- Modelled from the spec: the repository declares the `GET_VIDEO`
binary wire format only in the `FileResponse` docstring (`commands.py`
lines 445-450) and ships no encoder, so the encoder is taken from spec
§4.1/§6: a 4-byte big-endian length prefix, that many bytes of JSON
`FileResponse` header, then exactly `fileSize` raw bytes of content.
`headerBytes` stands for the UTF-8 bytes of the dumped JSON header. -/
def encodeFileTransfer (headerBytes : List ℕ) (payload : List ℕ) : List ℕ :=
  u32be headerBytes.length ++ (headerBytes ++ payload)

/-- Modelled from the spec: the matching decoder (spec §4.1) — read the
4-byte prefix, read exactly that many header bytes, parse the header
(`parseHeader` stands for `json.loads` + `FileResponse.from_json` on
bytes), then read exactly `fileSize` payload bytes; any short read is a
`truncatedStream` error. -/
def decodeFileTransfer (parseHeader : List ℕ → Option FileResponse)
    (stream : List ℕ) : Except DecodeError (FileResponse × List ℕ) :=
  if stream.length < 4 then .error .truncatedStream
  else if (stream.drop 4).length < beVal (stream.take 4) then .error .truncatedStream
  else
    match parseHeader ((stream.drop 4).take (beVal (stream.take 4))) with
    | none => .error .malformedJson
    | some h =>
      if ((stream.drop 4).drop (beVal (stream.take 4))).length < h.fileSize.toNat then
        .error .truncatedStream
      else .ok (h, ((stream.drop 4).drop (beVal (stream.take 4))).take h.fileSize.toNat)

theorem toNat_ofNat_valid (n : ℕ) (h : n.isValidChar) : (Char.ofNat n).toNat = n := by
  rw [Char.ofNat, dif_pos h]
  simp [Char.ofNatAux, Char.toNat, UInt32.toNat, BitVec.toNat_ofNatLt]

theorem lowerChar_idem (c : Char) : lowerChar (lowerChar c) = lowerChar c := by
  by_cases h : 65 ≤ c.toNat ∧ c.toNat ≤ 90
  · have hv : (c.toNat + 32).isValidChar := Or.inl (by omega)
    have ht : (Char.ofNat (c.toNat + 32)).toNat = c.toNat + 32 :=
      toNat_ofNat_valid _ hv
    have hlc : lowerChar c = Char.ofNat (c.toNat + 32) := by rw [lowerChar, if_pos h]
    rw [hlc, lowerChar, if_neg (by rw [ht]; omega)]
  · have hlc : lowerChar c = c := by rw [lowerChar, if_neg h]
    rw [hlc]
    exact hlc

theorem pyLower_idem (s : String) : pyLower (pyLower s) = pyLower s := by
  simp [pyLower, List.map_map, Function.comp_def, lowerChar_idem]

theorem CommandType.fromString_value (c : CommandType) :
    CommandType.fromString c.value = some c := by
  cases c <;> rfl

theorem commandMessage_from_to_json (m : CommandMessage) :
    CommandMessage.from_json m.to_json = .ok m := by
  obtain ⟨c, t, d, fn, url⟩ := m
  cases c <;> cases fn <;> cases url <;> rfl

theorem uploadItem_from_to_dict (u : UploadItem) :
    UploadItem.from_dict u.toDict = .ok u := by
  obtain ⟨fn, fs, bu, up, us, st, uu, er⟩ := u
  cases er <;> rfl

theorem uploadList_roundtrip (l : List UploadItem) :
    mapExcept UploadItem.from_dict (l.map UploadItem.toDict) = .ok l := by
  induction l with
  | nil => rfl
  | cons x xs ih => simp [mapExcept, uploadItem_from_to_dict, ih]

theorem statusResponse_from_to_json (r : StatusResponse) :
    StatusResponse.from_json r.to_json = .ok r := by
  obtain ⟨dev, st, ts, bl, uq, fq⟩ := r
  have h1 := uploadList_roundtrip uq
  have h2 := uploadList_roundtrip fq
  cases bl <;>
    simp [StatusResponse.from_json, StatusResponse.to_json, StatusResponse.decodeQueue,
      lookupKey, requireKey, asStr, asFloat, getOptFloat, optFloatJson, h1, h2]

theorem stopRecordingResponse_from_to_json (r : StopRecordingResponse) :
    StopRecordingResponse.from_json r.to_json = .ok r := rfl

theorem errorResponse_from_to_json (r : ErrorResponse) :
    ErrorResponse.from_json r.to_json = .ok r := rfl

theorem fileResponse_from_to_json (r : FileResponse) :
    FileResponse.from_json r.to_json = .ok r := rfl

theorem fileMetadata_from_to_dict (f : FileMetadata) :
    FileMetadata.from_dict f.toDict = .ok f := rfl

theorem fileList_roundtrip (l : List FileMetadata) :
    mapExcept FileMetadata.from_dict (l.map FileMetadata.toDict) = .ok l := by
  induction l with
  | nil => rfl
  | cons x xs ih => simp [mapExcept, fileMetadata_from_to_dict, ih]

theorem listFilesResponse_from_to_json (r : ListFilesResponse) :
    ListFilesResponse.from_json r.to_json = .ok r := by
  obtain ⟨dev, st, ts, fls⟩ := r
  have h1 := fileList_roundtrip fls
  simp [ListFilesResponse.from_json, ListFilesResponse.to_json,
    lookupKey, requireKey, asStr, asFloat, h1]

/-- C1: for each message type of the package, deserializing the
serialization gives back an equal value, for every valid field
combination (optional fields `None` included, queues possibly empty). -/
theorem json_roundtrip_all_messages :
    (∀ x : CommandMessage, CommandMessage.from_json x.to_json = .ok x) ∧
    (∀ x : StatusResponse, StatusResponse.from_json x.to_json = .ok x) ∧
    (∀ x : StopRecordingResponse, StopRecordingResponse.from_json x.to_json = .ok x) ∧
    (∀ x : ErrorResponse, ErrorResponse.from_json x.to_json = .ok x) ∧
    (∀ x : FileResponse, FileResponse.from_json x.to_json = .ok x) ∧
    (∀ x : ListFilesResponse, ListFilesResponse.from_json x.to_json = .ok x) :=
  ⟨commandMessage_from_to_json, statusResponse_from_to_json,
   stopRecordingResponse_from_to_json, errorResponse_from_to_json,
   fileResponse_from_to_json, listFilesResponse_from_to_json⟩

/-- C3: `is_success` holds exactly when the lowercased input is one of
the nine success tokens, `is_error` exactly when it is one of the four
error tokens, both are case-insensitive (`f s = f (lower s)`), and every
`DeviceStatus` value string is itself a lowercase snake_case token. -/
theorem status_classification_closed_sets :
    (∀ s : String, DeviceStatus.is_success s = true ↔
        pyLower s ∈ (["ready", "recording", "scheduled_recording_accepted",
          "command_received", "recording_stopped", "stopping", "uploading",
          "upload_queued", "upload_completed"] : List String)) ∧
    (∀ s : String, DeviceStatus.is_error s = true ↔
        pyLower s ∈ (["error", "time_not_synchronized", "file_not_found",
          "upload_failed"] : List String)) ∧
    (∀ s : String, DeviceStatus.is_success s = DeviceStatus.is_success (pyLower s) ∧
        DeviceStatus.is_error s = DeviceStatus.is_error (pyLower s)) ∧
    (∀ v : DeviceStatus, pyLower v.value = v.value ∧
        ∀ c ∈ (DeviceStatus.value v).data, ('a' ≤ c ∧ c ≤ 'z') ∨ c = '_') := by
  refine ⟨?_, ?_, ?_, ?_⟩
  · intro s
    exact List.elem_iff
  · intro s
    exact List.elem_iff
  · intro s
    constructor <;>
      simp [DeviceStatus.is_success, DeviceStatus.is_error, pyLower_idem]
  · intro v
    cases v <;> exact ⟨by decide, by decide⟩

/-- Witness for C3 at `s = "Ready"`, `v = READY`, `c = 'r'`. -/
theorem status_classification_closed_sets_witness :
    (DeviceStatus.is_success "Ready" = true ↔
        pyLower "Ready" ∈ (["ready", "recording", "scheduled_recording_accepted",
          "command_received", "recording_stopped", "stopping", "uploading",
          "upload_queued", "upload_completed"] : List String)) ∧
    pyLower DeviceStatus.READY.value = DeviceStatus.READY.value ∧
    (('a' ≤ 'r' ∧ 'r' ≤ 'z') ∨ 'r' = '_') :=
  ⟨status_classification_closed_sets.1 "Ready",
   (status_classification_closed_sets.2.2.2 .READY).1,
   (status_classification_closed_sets.2.2.2 .READY).2 'r' (by decide)⟩

/-- C4: the classification functions partition the `DeviceStatus`
enumeration — every member is classified as success or as error, and
never as both. -/
theorem deviceStatus_classification_partitions (v : DeviceStatus) :
    (DeviceStatus.is_success v.value = true ∧ DeviceStatus.is_error v.value = false) ∨
    (DeviceStatus.is_success v.value = false ∧ DeviceStatus.is_error v.value = true) := by
  cases v <;> decide

/-- C5 (counterexample): `CommandMessage.from_json` accepts a `GET_VIDEO`
object with no `fileName` key and yields a message whose `fileName` is
`None`, so the required-field invariant does not hold for every message
obtained through `from_json`. -/
theorem getVideo_without_fileName_decodes :
    CommandMessage.from_json
        (.obj [("command", .str "GET_VIDEO"), ("timestamp", .floatNum 0)]) =
      .ok { command := .GET_VIDEO, timestamp := 0, deviceId := "controller",
            fileName := none, uploadUrl := none } ∧
    ({ command := .GET_VIDEO, timestamp := 0, deviceId := "controller",
       fileName := none, uploadUrl := none } : CommandMessage).fileName = none :=
  ⟨rfl, rfl⟩

/-- C5 (amended): the classmethod constructors do establish the
invariant — `get_video` always sets `fileName`, and `upload_to_cloud`
always sets both `fileName` and `uploadUrl` (while `from_json` performs
no such validation, see the counterexample). -/
theorem constructor_required_fields (fn url d : String) (now : ℚ) :
    (CommandMessage.get_video fn d now).command = .GET_VIDEO ∧
    (CommandMessage.get_video fn d now).fileName = some fn ∧
    (CommandMessage.upload_to_cloud fn url d now).command = .UPLOAD_TO_CLOUD ∧
    (CommandMessage.upload_to_cloud fn url d now).fileName = some fn ∧
    (CommandMessage.upload_to_cloud fn url d now).uploadUrl = some url :=
  ⟨rfl, rfl, rfl, rfl, rfl⟩

/-- C7: the exported protocol constants have the values the spec fixes:
RTT gate 0.5 s, TCP port 8080, mDNS service type, 8192-byte chunks,
60 s command timeout and a 600 s (10 min) download stall window. -/
theorem protocol_constants_values :
    MAX_ACCEPTABLE_RTT = 1 / 2 ∧
    TCP_PORT = 8080 ∧
    SERVICE_TYPE = "_multicam._tcp.local." ∧
    DOWNLOAD_CHUNK_SIZE = 8192 ∧
    COMMAND_TIMEOUT = 60 ∧
    DOWNLOAD_STALL_TIMEOUT = 600 ∧ DOWNLOAD_STALL_TIMEOUT = 10 * 60 := by
  refine ⟨?_, rfl, rfl, rfl, ?_, ?_, ?_⟩ <;>
    norm_num [MAX_ACCEPTABLE_RTT, COMMAND_TIMEOUT, DOWNLOAD_STALL_TIMEOUT]

/-- C8: `start_recording` keeps a nonzero explicit timestamp, but the
Python body `timestamp or time.time()` treats `0.0` as falsy, so a zero
timestamp is replaced by the current time exactly as `None` is. -/
theorem start_recording_timestamp (t : ℚ) (d : String) (now : ℚ) :
    (t ≠ 0 →
      (CommandMessage.start_recording (some t) d now).command = .START_RECORDING ∧
      (CommandMessage.start_recording (some t) d now).deviceId = d ∧
      (CommandMessage.start_recording (some t) d now).timestamp = t) ∧
    (CommandMessage.start_recording (some 0) d now).timestamp = now ∧
    (CommandMessage.start_recording none d now).timestamp = now := by
  refine ⟨fun ht => ⟨rfl, rfl, ?_⟩, ?_, rfl⟩
  · simp [CommandMessage.start_recording, ht]
  · simp [CommandMessage.start_recording]

/-- Witness for C8 at `t = 5`, `now = 9`. -/
theorem start_recording_timestamp_witness :
    (CommandMessage.start_recording (some 5) "controller" 9).timestamp = 5 ∧
    (CommandMessage.start_recording (some 0) "controller" 9).timestamp = 9 :=
  ⟨((start_recording_timestamp 5 "controller" 9).1 (by norm_num)).2.2,
   (start_recording_timestamp 5 "controller" 9).2.1⟩

/-- C10: the legacy `SUCCESS_STATUSES` set is a strict subset of the
`is_success` set — every member passes `is_success`, the three
upload-related statuses pass `is_success` without being members, and on
the `DeviceStatus` enumeration the two classifications diverge exactly
on those three statuses. -/
theorem legacy_success_statuses_strict_subset :
    (∀ s ∈ SUCCESS_STATUSES, DeviceStatus.is_success s = true) ∧
    (∀ s ∈ (["uploading", "upload_queued", "upload_completed"] : List String),
        DeviceStatus.is_success s = true ∧ s ∉ SUCCESS_STATUSES) ∧
    (∀ v : DeviceStatus,
        (DeviceStatus.is_success v.value = true ∧ v.value ∉ SUCCESS_STATUSES) ↔
          (v = .UPLOADING ∨ v = .UPLOAD_QUEUED ∨ v = .UPLOAD_COMPLETED)) := by
  refine ⟨?_, ?_, ?_⟩
  · intro s hs
    fin_cases hs <;> decide
  · intro s hs
    fin_cases hs <;> decide
  · intro v
    cases v <;> decide

/-- Witness for C10 at `"ready"` and `"uploading"`. -/
theorem legacy_success_statuses_strict_subset_witness :
    DeviceStatus.is_success "ready" = true ∧
    DeviceStatus.is_success "uploading" = true ∧ "uploading" ∉ SUCCESS_STATUSES :=
  ⟨legacy_success_statuses_strict_subset.1 "ready" (by decide),
   (legacy_success_statuses_strict_subset.2.1 "uploading" (by decide)).1,
   (legacy_success_statuses_strict_subset.2.1 "uploading" (by decide)).2⟩

/-- C2: decoding a `CommandMessage` fails — never yields a value — when
the input is not well-formed JSON, when `command` or `timestamp` is
absent, or when the `command` string matches no `CommandType` member. -/
theorem command_decode_failure_cases :
    CommandMessage.decode none = .error .malformedJson ∧
    (∀ kvs, lookupKey kvs "command" = none →
        ∀ m, CommandMessage.from_json (.obj kvs) ≠ .ok m) ∧
    (∀ kvs, lookupKey kvs "timestamp" = none →
        ∀ m, CommandMessage.from_json (.obj kvs) ≠ .ok m) ∧
    (∀ kvs s, lookupKey kvs "command" = some (.str s) →
        CommandType.fromString s = none →
        ∀ m, CommandMessage.from_json (.obj kvs) ≠ .ok m) := by
  refine ⟨rfl, ?_, ?_, ?_⟩
  · intro kvs h m hok
    simp [CommandMessage.from_json, h] at hok
  · intro kvs h m hok
    rcases hc : lookupKey kvs "command" with _ | cv
    · simp [CommandMessage.from_json, hc] at hok
    · cases cv
      case str cs =>
        rcases hf : CommandType.fromString cs with _ | cmd
        · simp [CommandMessage.from_json, hc, hf] at hok
        · simp [CommandMessage.from_json, hc, hf, h] at hok
      all_goals simp [CommandMessage.from_json, hc] at hok
  · intro kvs s hc hf m hok
    simp [CommandMessage.from_json, hc, hf] at hok

/-- Witness for C2: a missing `command` key, a missing `timestamp` key,
and an unknown command string each fail on a concrete object. -/
theorem command_decode_failure_cases_witness :
    CommandMessage.from_json (.obj [("timestamp", .floatNum 0)]) ≠
      .ok { command := .HEARTBEAT, timestamp := 0 } ∧
    CommandMessage.from_json (.obj [("command", .str "HEARTBEAT")]) ≠
      .ok { command := .HEARTBEAT, timestamp := 0 } ∧
    CommandMessage.from_json
        (.obj [("command", .str "REBOOT"), ("timestamp", .floatNum 0)]) ≠
      .ok { command := .HEARTBEAT, timestamp := 0 } :=
  ⟨command_decode_failure_cases.2.1 [("timestamp", .floatNum 0)] rfl _,
   command_decode_failure_cases.2.2.1 [("command", .str "HEARTBEAT")] rfl _,
   command_decode_failure_cases.2.2.2
     [("command", .str "REBOOT"), ("timestamp", .floatNum 0)] "REBOOT" rfl rfl _⟩

/-- C9: decoding tolerates absent optional keys with fixed defaults —
whenever `CommandMessage.from_json` succeeds on an object lacking
`deviceId` (resp. `fileName`, `uploadUrl`) the result has
`deviceId = "controller"` (resp. `None`), such an object does decode
successfully, and `StatusResponse.from_json` likewise defaults a missing
`uploadQueue`/`failedUploadQueue` to the empty list. -/
theorem decode_optional_defaults :
    (∀ kvs m, CommandMessage.from_json (.obj kvs) = .ok m →
      (lookupKey kvs "deviceId" = none → m.deviceId = "controller") ∧
      (lookupKey kvs "fileName" = none → m.fileName = none) ∧
      (lookupKey kvs "uploadUrl" = none → m.uploadUrl = none)) ∧
    CommandMessage.from_json
        (.obj [("command", .str "HEARTBEAT"), ("timestamp", .floatNum 1)]) =
      .ok { command := .HEARTBEAT, timestamp := 1, deviceId := "controller",
            fileName := none, uploadUrl := none } ∧
    (∀ kvs r, StatusResponse.from_json (.obj kvs) = .ok r →
      (lookupKey kvs "uploadQueue" = none → r.uploadQueue = []) ∧
      (lookupKey kvs "failedUploadQueue" = none → r.failedUploadQueue = [])) ∧
    StatusResponse.from_json
        (.obj [("deviceId", .str "dev"), ("status", .str "ready"),
               ("timestamp", .floatNum 1)]) =
      .ok { deviceId := "dev", status := "ready", timestamp := 1,
            batteryLevel := none, uploadQueue := [], failedUploadQueue := [] } := by
  refine ⟨?_, rfl, ?_, rfl⟩
  · intro kvs m hok
    simp only [CommandMessage.from_json] at hok
    repeat' split at hok
    all_goals try simp at hok
    all_goals
      subst hok
      refine ⟨fun hd => ?_, fun hf => ?_, fun hu => ?_⟩ <;> simp_all [getOptStr]
  · intro kvs r hok
    simp only [StatusResponse.from_json] at hok
    repeat' split at hok
    all_goals try simp at hok
    all_goals
      subst hok
      refine ⟨fun hq => ?_, fun hfq => ?_⟩ <;>
        simp_all [StatusResponse.decodeQueue]

theorem length_u32be (n : ℕ) : (u32be n).length = 4 := rfl

theorem beVal_u32be (n : ℕ) (hn : n < 4294967296) : beVal (u32be n) = n := by
  simp only [beVal, u32be]
  omega

/-- C6: the `GET_VIDEO` success framing is a 4-byte big-endian length
prefix, exactly that many header bytes, then exactly `fileSize` payload
bytes; decoding it back yields the header and payload, and any stream
shorter than the prefix or the announced sizes decodes to a
truncated-stream error, never to a success. -/
theorem file_transfer_framing (parse : List ℕ → Option FileResponse)
    (h : FileResponse) (hb payload : List ℕ)
    (hparse : parse hb = some h)
    (hlen : payload.length = h.fileSize.toNat)
    (hsz : hb.length < 4294967296) :
    encodeFileTransfer hb payload = u32be hb.length ++ hb ++ payload ∧
    decodeFileTransfer parse (encodeFileTransfer hb payload) = .ok (h, payload) ∧
    (∀ stream : List ℕ, stream.length < 4 →
        decodeFileTransfer parse stream = .error .truncatedStream) ∧
    (∀ k, k < hb.length + payload.length →
        decodeFileTransfer parse ((encodeFileTransfer hb payload).take (4 + k)) =
          .error .truncatedStream) := by
  have h4 : (u32be hb.length).length = 4 := rfl
  have hbv : beVal (u32be hb.length) = hb.length := beVal_u32be _ hsz
  have e1 : (u32be hb.length ++ (hb ++ payload)).take 4 = u32be hb.length := by
    rw [← h4, List.take_left]
  have e2 : (u32be hb.length ++ (hb ++ payload)).drop 4 = hb ++ payload := by
    rw [← h4, List.drop_left]
  refine ⟨(List.append_assoc _ _ _).symm, ?_, ?_, ?_⟩
  · simp only [encodeFileTransfer, decodeFileTransfer, e1, e2, hbv,
      List.take_left, List.drop_left, hparse, List.length_append, h4]
    rw [if_neg (by omega), if_neg (by omega), if_neg (by omega),
      ← hlen, List.take_length]
  · intro stream hst
    rw [decodeFileTransfer, if_pos hst]
  · intro k hk
    have htk : (encodeFileTransfer hb payload).take (4 + k) =
        u32be hb.length ++ (hb ++ payload).take k := by
      rw [encodeFileTransfer, List.take_append_eq_append_take]
      congr 1
      · exact List.take_of_length_le (by rw [h4]; omega)
      · rw [h4]
        congr 1
        omega
    have hmin : ((hb ++ payload).take k).length = k := by
      rw [List.length_take, List.length_append]
      omega
    have e1t : (u32be hb.length ++ (hb ++ payload).take k).take 4 = u32be hb.length := by
      rw [← h4, List.take_left]
    have e2t : (u32be hb.length ++ (hb ++ payload).take k).drop 4 =
        (hb ++ payload).take k := by
      rw [← h4, List.drop_left]
    rw [htk, decodeFileTransfer, e1t, e2t, hbv,
      if_neg (by rw [List.length_append, h4]; omega)]
    rcases lt_or_ge k hb.length with hcase | hcase
    · rw [if_pos (by rw [hmin]; exact hcase)]
    · rw [if_neg (by rw [hmin]; omega)]
      have etake : ((hb ++ payload).take k).take hb.length = hb := by
        rw [List.take_take, min_eq_left hcase, List.take_left]
      have edrop : ((hb ++ payload).take k).drop hb.length =
          payload.take (k - hb.length) := by
        rw [List.drop_take, List.drop_left]
      rw [etake, hparse, edrop]
      have hcond : (payload.take (k - hb.length)).length < h.fileSize.toNat := by
        rw [List.length_take]
        omega
      simp [hcond]
      omega

/-- Witness for C6: a one-byte header parsed by a concrete header parser
and a two-byte payload. -/
theorem file_transfer_framing_witness :
    decodeFileTransfer
        (fun bs => if bs = [104] then
            some { deviceId := "d", fileName := "f", fileSize := 2, status := "ready" }
          else none)
        (encodeFileTransfer [104] [9, 9]) =
      .ok ({ deviceId := "d", fileName := "f", fileSize := 2, status := "ready" }, [9, 9]) :=
  (file_transfer_framing
      (fun bs => if bs = [104] then
          some { deviceId := "d", fileName := "f", fileSize := 2, status := "ready" }
        else none)
      { deviceId := "d", fileName := "f", fileSize := 2, status := "ready" }
      [104] [9, 9] (by decide) rfl (by norm_num)).2.1

/-- Witness for C9 on concrete objects lacking the optional keys. -/
theorem decode_optional_defaults_witness :
    ({ command := .HEARTBEAT, timestamp := 1, deviceId := "controller",
       fileName := none, uploadUrl := none } : CommandMessage).deviceId = "controller" ∧
    ({ deviceId := "dev", status := "ready", timestamp := 1, batteryLevel := none,
       uploadQueue := [], failedUploadQueue := [] } : StatusResponse).uploadQueue = [] :=
  ⟨((decode_optional_defaults.1 _ _ decode_optional_defaults.2.1).1 rfl),
   ((decode_optional_defaults.2.2.1 _ _ decode_optional_defaults.2.2.2).1 rfl)⟩

end MultiCam
